import Mathlib

/-!
Verification development for the tt10-verilog-spi host-side code.

The repository holds two Python files:

* `interface_fpga.py` — a host driver (`QSPIMatrixMultiplier`) that packs two
  2x2 integer matrices into an 8-byte payload (A row-major then B row-major,
  each element `int(x) & 0xFF`), performs one SPI exchange, and reshapes the
  4 returned bytes into a 2x2 result matrix.
* `test/test.py` — a cocotb testbench that bit-bangs a UART byte onto
  `uart_rx` (start bit low, 8 data bits LSB first, stop bit high, each held
  for 1042 clock cycles) and decodes bytes from `uart_tx`, checking the
  sample product [[1,2],[3,4]] x [[5,6],[7,8]] = [[19,22],[43,50]].

The definitions below are shallow embeddings of those routines; theorems
about them settle the specification claims.
-/

/-- A 2x2 matrix with entries of type `α`, written row-major:
`m00 m01 / m10 m11`.  This models both the numpy-array and the
nested-list inputs of `multiply_matrices`, since both flattening branches
(`matrix.flatten().tolist()` and the explicit
`[m[0][0], m[0][1], m[1][0], m[1][1]]`) produce the row-major order. -/
structure Mat2 (α : Type) where
  m00 : α
  m01 : α
  m10 : α
  m11 : α
  deriving Repr, DecidableEq

/-- Row-major flattening of an integer 2x2 matrix
(`a_flat` / `b_flat` in `multiply_matrices`, interface_fpga.py lines 50-58). -/
def flat2 (M : Mat2 Int) : List Int := [M.m00, M.m01, M.m10, M.m11]

/-- Row-major flattening of a Nat-valued 2x2 matrix (used to talk about the
result matrix built from the 4 received bytes). -/
def flat2N (M : Mat2 Nat) : List Nat := [M.m00, M.m01, M.m10, M.m11]

/-- The per-element conversion `int(x) & 0xFF` of interface_fpga.py line 61:
Python's bitwise-and of an arbitrary integer with 0xFF is the mathematical
residue modulo 256, always in 0..255. -/
def mask8 (x : Int) : Nat := (x % 256).toNat

/-- `a_bytes = bytes([int(x) & 0xFF for x in a_flat])` (line 61). -/
def a_bytes (A : Mat2 Int) : List Nat := (flat2 A).map mask8

/-- `b_bytes = bytes([int(x) & 0xFF for x in b_flat])` (line 62). -/
def b_bytes (B : Mat2 Int) : List Nat := (flat2 B).map mask8

/-- `write_data = a_bytes + b_bytes` (line 65): the 8-byte outbound payload. -/
def write_data (A B : Mat2 Int) : List Nat := a_bytes A ++ b_bytes B

/-- Reading cell `i` of the pre-zeroed receive buffer
`result_bytes = bytearray(4)` (line 68) after the transport has overwritten
its first `rx.length` cells with the received bytes: a cell never written
keeps its initial value 0.  Received bytes are of type `Fin 256` because a
Python `bytearray` cell is by construction in 0..255. -/
def result_bytes_get (rx : List (Fin 256)) (i : Nat) : Nat := (rx.getD i 0).val

/-- The reshape of interface_fpga.py lines 78-81:
`result = np.array([[result_bytes[0], result_bytes[1]], [result_bytes[2], result_bytes[3]]])`. -/
def resultFrom (rx : List (Fin 256)) : Mat2 Nat :=
  ⟨result_bytes_get rx 0, result_bytes_get rx 1,
   result_bytes_get rx 2, result_bytes_get rx 3⟩

/-- Observable events performed by `multiply_matrices`, in program order:
a sleep (milliseconds), a console print, or one SPI exchange transmitting
`tx` and filling a receive buffer of `rxLen` bytes. -/
inductive Event where
  | sleep (ms : Nat)
  | printMsg (s : String)
  | exchange (tx : List Nat) (rxLen : Nat)
  deriving Repr, DecidableEq

/-- Recogniser for exchange events. -/
def isExchangeEvent : Event → Bool
  | Event.exchange _ _ => true
  | _ => false

/-- Recogniser for sleep events. -/
def isSleepEvent : Event → Bool
  | Event.sleep _ => true
  | _ => false

/-- The event trace of one `multiply_matrices` call (interface_fpga.py
lines 71-75): `time.sleep(0.01)` (10 ms), then
`print("Sending data to FPGA...")`, then the single combined
write-and-read transaction `self.spi.exchange(write_data, result_bytes)`. -/
def multiply_trace (A B : Mat2 Int) : List Event :=
  [Event.sleep 10,
   Event.printMsg "Sending data to FPGA...",
   Event.exchange (write_data A B) 4]

/-- Functional core of `multiply_matrices`: the transport is abstracted as a
function from the outbound payload to the list of received bytes; the
return value is the reshaped receive buffer. -/
def multiply_matrices (exchange : List Nat → List (Fin 256))
    (A B : Mat2 Int) : Mat2 Nat :=
  resultFrom (exchange (write_data A B))

/-- The diagnostic lines printed by the `except` clause of
`QSPIMatrixMultiplier.__init__` (interface_fpga.py lines 38-44), given the
rendered exception text. -/
def troubleshoot_prints (errText : String) : List String :=
  ["Connection failed: " ++ errText,
   "\nTroubleshooting tips:",
   "1. Make sure your ARTY A7 is connected and powered",
   "2. Verify the QSPI pins are correctly connected to a PMOD port",
   "3. Try using a different FTDI URL based on the available devices listed above",
   "4. If using Windows, ensure the correct FTDI drivers are installed"]

/-- The `try`/`except` block of `QSPIMatrixMultiplier.__init__`
(interface_fpga.py lines 31-45).  `body` is the outcome of
`configure(ftdi_url)` followed by `get_port(...)` (value `p` on success,
exception `e` on failure); the result is the list of printed lines paired
with the propagated outcome.  The bare `raise` re-raises the same `e`. -/
def init_try (E P : Type) (render : E → String) (body : Except E P) :
    List String × Except E P :=
  match body with
  | Except.ok p => (["QSPI Matrix Multiplier connected successfully"], Except.ok p)
  | Except.error e => (troubleshoot_prints (render e), Except.error e)

/-- `uart_cycles_per_bit = 1042` (test.py line 32). -/
def uart_cycles_per_bit : Nat := 1042

/-- `uart_cycles_per_half_bit = 521` (test.py line 33). -/
def uart_cycles_per_half_bit : Nat := 521

/-- The waveform driven onto `dut.uart_rx` by `send_uart_byte`
(test.py lines 40-57), as a list of (level, clock-cycle-count) segments:
start bit low for one bit time, the 8 data bits LSB first (bit `i` is
`(byte_to_send >> i) & 1`), the stop bit high, then the inter-byte idle-high
delay of two bit times. -/
def send_uart_byte (b : Nat) : List (Bool × Nat) :=
  (false, uart_cycles_per_bit) ::
    ((List.range 8).map (fun i => (Nat.testBit b i, uart_cycles_per_bit)) ++
      [(true, uart_cycles_per_bit), (true, uart_cycles_per_bit * 2)])

/-- Sampling a segment waveform at clock cycle `t` (cycle 0 is the first
cycle of the first segment); past the end of the listed segments the UART
line is idle high. -/
def levelAt : List (Bool × Nat) → Nat → Bool
  | [], _ => true
  | (v, c) :: rest, t => if t < c then v else levelAt rest (t - c)

/-- `receive_uart_byte` (test.py lines 61-89) applied to a waveform whose
cycle 0 is the falling edge the coroutine just awaited: wait half a bit time
and check the start bit is still low (else raise), then sample the 8 data
bits LSB first, one full bit time apart, assembling
`byte_received |= bit << i`, then one more bit time later check the stop bit
is high (else raise) and return the byte.  Raised exceptions are modelled by
`Except.error` carrying the message text. -/
def receive_uart_byte (segs : List (Bool × Nat)) : Except String Nat :=
  if levelAt segs uart_cycles_per_half_bit = false then
    let byte := (List.range 8).foldl
      (fun acc i =>
        acc |||
          ((if levelAt segs (uart_cycles_per_half_bit + uart_cycles_per_bit * (i + 1))
            then 1 else 0) <<< i))
      0
    if levelAt segs (uart_cycles_per_half_bit + uart_cycles_per_bit * 9) = true then
      Except.ok byte
    else
      Except.error "UART RX: Did not detect high stop bit."
  else
    Except.error "UART RX: Did not detect low start bit in the middle."

/-- `matrix_a = [1, 2, 3, 4]`, i.e. A = [[1,2],[3,4]] (test.py line 36,
also `A = np.array([[1, 2], [3, 4]])` in interface_fpga.py line 115). -/
def matrix_a : Mat2 Int := ⟨1, 2, 3, 4⟩

/-- `matrix_b = [5, 6, 7, 8]`, i.e. B = [[5,6],[7,8]] (test.py line 37,
also `B = np.array([[5, 6], [7, 8]])` in interface_fpga.py line 116). -/
def matrix_b : Mat2 Int := ⟨5, 6, 7, 8⟩

/-- `expected = [19, 22, 43, 50]` (test.py line 146). -/
def expected_result : List Nat := [19, 22, 43, 50]

/-- The 2x2 integer matrix product, as computed by numpy matrix
multiplication `A @ B` (interface_fpga.py line 133) against which the
driver verifies the hardware result. -/
def mat2Mul (A B : Mat2 Int) : Mat2 Int :=
  ⟨A.m00 * B.m00 + A.m01 * B.m10,
   A.m00 * B.m01 + A.m01 * B.m11,
   A.m10 * B.m00 + A.m11 * B.m10,
   A.m10 * B.m01 + A.m11 * B.m11⟩

/-- The final assertions of `test_full_matrix_mult_system`
(test.py lines 150-153): the received list must have exactly 4 bytes and
each byte must equal the corresponding entry of `expected`. -/
def test_passes (result : List Nat) : Bool :=
  result.length == 4 &&
    (List.range 4).all (fun i => result.getD i 0 == expected_result.getD i 0)

/-- Helper: `mask8` always lands in 0..255. -/
theorem mask8_lt (x : Int) : mask8 x < 256 := by
  unfold mask8
  have h1 : 0 ≤ x % 256 := Int.emod_nonneg x (by decide)
  have h2 : x % 256 < 256 := Int.emod_lt_of_pos x (by decide)
  omega

/-- C2: for every pair of 2x2 integer matrices, `multiply_matrices` builds
the outbound payload as exactly 8 bytes — the four elements of A in
row-major order followed by the four elements of B in row-major order —
each element masked to 8 bits (0..255) before transmission. -/
theorem c2_payload_layout (A B : Mat2 Int) :
    write_data A B =
      [mask8 A.m00, mask8 A.m01, mask8 A.m10, mask8 A.m11,
       mask8 B.m00, mask8 B.m01, mask8 B.m10, mask8 B.m11] ∧
    (write_data A B).length = 8 ∧
    ∀ y ∈ write_data A B, y < 256 := by
  refine ⟨rfl, rfl, ?_⟩
  intro y hy
  simp [write_data, a_bytes, b_bytes, flat2] at hy
  rcases hy with h | h | h | h | h | h | h | h <;> rw [h] <;> exact mask8_lt _

/-- C3: `multiply_matrices` interprets exactly 4 inbound bytes as the
row-major flattened 2x2 result matrix (entry (0,0) is byte 0, (0,1) is
byte 1, (1,0) is byte 2, (1,1) is byte 3), and each inbound byte enters the
result untransformed. -/
theorem c3_result_layout (ex : List Nat → List (Fin 256)) (A B : Mat2 Int)
    (b0 b1 b2 b3 : Fin 256) (h : ex (write_data A B) = [b0, b1, b2, b3]) :
    multiply_matrices ex A B = ⟨b0.val, b1.val, b2.val, b3.val⟩ := by
  unfold multiply_matrices
  rw [h]
  rfl

/-- C3 witness: a concrete replay in which the transport returns the bytes
19, 22, 43, 50 and the driver reshapes them row-major. -/
theorem c3_result_layout_witness :
    (fun (_ : List Nat) => ([19, 22, 43, 50] : List (Fin 256))) (write_data matrix_a matrix_b)
      = [(19 : Fin 256), 22, 43, 50] ∧
    multiply_matrices (fun _ => [(19 : Fin 256), 22, 43, 50]) matrix_a matrix_b
      = ⟨19, 22, 43, 50⟩ :=
  ⟨rfl, c3_result_layout _ matrix_a matrix_b 19 22 43 50 rfl⟩

/-- C6: when the transport configuration fails, `QSPIMatrixMultiplier.__init__`
re-raises the very same exception (the outcome component is `Except.error e`),
and the only bespoke handling before re-raising is printing the diagnostic
lines. -/
theorem c6_init_reraises (E P : Type) (render : E → String) (e : E) :
    (init_try E P render (Except.error e)).2 = Except.error e ∧
    (init_try E P render (Except.error e)).1 = troubleshoot_prints (render e) :=
  ⟨rfl, rfl⟩

/-- C8: the outbound payload depends on each matrix element only modulo 256:
shifting every element by an arbitrary multiple of 256 leaves the 8-byte
payload unchanged. -/
theorem c8_payload_mod_256
    (a00 a01 a10 a11 b00 b01 b10 b11 : Int)
    (k00 k01 k10 k11 l00 l01 l10 l11 : Int) :
    write_data ⟨a00 + 256 * k00, a01 + 256 * k01, a10 + 256 * k10, a11 + 256 * k11⟩
               ⟨b00 + 256 * l00, b01 + 256 * l01, b10 + 256 * l10, b11 + 256 * l11⟩
      = write_data ⟨a00, a01, a10, a11⟩ ⟨b00, b01, b10, b11⟩ := by
  simp only [write_data, a_bytes, b_bytes, flat2, List.map, mask8,
    Int.add_mul_emod_self_left]

/-- C9: whatever bytes the transport delivers, the matrix returned by
`multiply_matrices` has all four entries in 0..255. -/
theorem c9_result_entries_bytes (ex : List Nat → List (Fin 256)) (A B : Mat2 Int) :
    (multiply_matrices ex A B).m00 < 256 ∧
    (multiply_matrices ex A B).m01 < 256 ∧
    (multiply_matrices ex A B).m10 < 256 ∧
    (multiply_matrices ex A B).m11 < 256 :=
  ⟨Fin.isLt _, Fin.isLt _, Fin.isLt _, Fin.isLt _⟩

deriving instance DecidableEq for Except

/-- C1: the sample product [[1,2],[3,4]] x [[5,6],[7,8]] is [[19,22],[43,50]];
the testbench's `expected` list is exactly these bytes in row-major order,
and its final assertions accept a received byte list if and only if it is
exactly [19, 22, 43, 50]. -/
theorem c1_sample_product :
    flat2 (mat2Mul matrix_a matrix_b) = [19, 22, 43, 50] ∧
    expected_result = [19, 22, 43, 50] ∧
    ∀ result : List Nat, test_passes result = true ↔ result = [19, 22, 43, 50] := by
  refine ⟨by decide, rfl, ?_⟩
  intro result
  constructor
  · intro h
    unfold test_passes at h
    rw [Bool.and_eq_true, beq_iff_eq] at h
    obtain ⟨hlen, hall⟩ := h
    rcases result with _ | ⟨a, _ | ⟨b, _ | ⟨c, _ | ⟨d, _ | ⟨e, t⟩⟩⟩⟩⟩ <;>
      simp_all [List.range_succ, expected_result]
  · rintro rfl
    rfl

/-- C4: when the transport delivers fewer than 4 bytes, the cells of the
pre-zeroed 4-byte receive buffer that were never overwritten enter the
result matrix as 0 — the short read is neither retried nor reported, the
reshape succeeds unconditionally. -/
theorem c4_short_read_zero_pad (rx : List (Fin 256)) (i : Nat)
    (hlen : rx.length ≤ i) (hi : i < 4) :
    (flat2N (resultFrom rx)).getD i 0 = 0 := by
  have hz : rx.getD i 0 = 0 := List.getD_eq_default _ _ hlen
  interval_cases i <;>
    simp_all [flat2N, resultFrom, result_bytes_get, List.getD]

/-- C4 witness: a 1-byte read leaves result cell 2 (and beyond) zero. -/
theorem c4_short_read_zero_pad_witness :
    ([(19 : Fin 256)] : List (Fin 256)).length ≤ 2 ∧ (2 : Nat) < 4 ∧
    (flat2N (resultFrom [(19 : Fin 256)])).getD 2 0 = 0 :=
  ⟨by decide, by decide, c4_short_read_zero_pad [(19 : Fin 256)] 2 (by decide) (by decide)⟩

/-- C5 (counterexample): on the sample matrices, the trace of
`multiply_matrices` has length 3, its first event is the fixed sleep, and no
exchange event precedes a sleep event — so the single fixed delay is a
pre-send delay (it happens before the combined write-and-read transaction),
not a post-send delay as the claim states. -/
theorem c5_delay_is_pre_send :
    (multiply_trace matrix_a matrix_b).length = 3 ∧
    isSleepEvent ((multiply_trace matrix_a matrix_b).getD 0 (Event.printMsg "")) = true ∧
    ¬ ∃ i j : Fin 3, i < j ∧
        isExchangeEvent ((multiply_trace matrix_a matrix_b).getD i.val (Event.printMsg "")) = true ∧
        isSleepEvent ((multiply_trace matrix_a matrix_b).getD j.val (Event.printMsg "")) = true := by
  decide

/-- C5 (amended): every `multiply_matrices` invocation performs exactly one
exchange on the transport (transmitting the 8-byte payload and filling the
4-byte receive buffer in a single combined transaction) and exactly one
fixed sleep, and the sleep occurs before that transaction — hence before the
result is read back, but also before the data is sent. -/
theorem c5_single_exchange (A B : Mat2 Int) :
    (multiply_trace A B).countP isExchangeEvent = 1 ∧
    (multiply_trace A B).countP isSleepEvent = 1 ∧
    (multiply_trace A B).findIdx isSleepEvent = 0 ∧
    (multiply_trace A B).findIdx isExchangeEvent = 2 ∧
    Event.exchange (write_data A B) 4 ∈ multiply_trace A B ∧
    (write_data A B).length = 8 :=
  ⟨rfl, rfl, rfl, rfl, by simp [multiply_trace], rfl⟩

set_option maxRecDepth 4000 in
/-- C7: the testbench's UART framing is one low start bit, 8 data bits LSB
first, one high stop bit, no parity bit, each held for the fixed 1042
clock cycles per bit; consequently the testbench's own receiver decodes
every frame produced by its sender back to the original byte. -/
theorem c7_uart_framing : ∀ b : Fin 256,
    (send_uart_byte b.val).getD 0 (true, 0) = (false, uart_cycles_per_bit) ∧
    (∀ i : Fin 8, (send_uart_byte b.val).getD (i.val + 1) (true, 0)
        = (Nat.testBit b.val i.val, uart_cycles_per_bit)) ∧
    (send_uart_byte b.val).getD 9 (true, 0) = (true, uart_cycles_per_bit) ∧
    receive_uart_byte (send_uart_byte b.val) = Except.ok b.val := by
  decide

/-- C10: `receive_uart_byte` never returns a byte on a framing violation —
if the line sampled in the middle of the start bit is not low, or the line
sampled at the stop-bit position is not high, it raises an exception
(modelled as `Except.error`) instead of returning. -/
theorem c10_framing_violation_raises (segs : List (Bool × Nat))
    (h : levelAt segs uart_cycles_per_half_bit = true ∨
         levelAt segs (uart_cycles_per_half_bit + uart_cycles_per_bit * 9) = false) :
    ∃ msg, receive_uart_byte segs = Except.error msg := by
  unfold receive_uart_byte
  rcases h with h | h
  · simp [h]
  · cases hstart : levelAt segs uart_cycles_per_half_bit
    · simp [hstart, h]
    · simp [hstart]

/-- C10 witness: an idle-high line (no segments, so every sample reads
high) violates the start-bit check and the receiver errors out. -/
theorem c10_framing_violation_raises_witness :
    (levelAt [] uart_cycles_per_half_bit = true ∨
     levelAt [] (uart_cycles_per_half_bit + uart_cycles_per_bit * 9) = false) ∧
    ∃ msg, receive_uart_byte [] = Except.error msg :=
  ⟨Or.inl rfl, c10_framing_violation_raises [] (Or.inl rfl)⟩
